import Mathlib

/-!
Shallow embedding of the YourDash backend's Application Plugin Registry and
Derived Asset Cache, translated from the TypeScript sources
(`src/applications.ts`, `src/main.ts`, `src/filesystem.ts`, and the panel
routes of `requestManager.ts`), together with theorems settling the frozen
specification claims.

Modelling conventions:
- Byte streams are `List Nat`; image contents are opaque byte lists.
- Filesystem paths are segment lists (`List String`); `path.join` /
  `path.posix.join` are embedded as segment concatenation after splitting on
  "/" and dropping "." and empty segments, which matches Node's behaviour on
  every path the embedded code builds (no ".." or doubled slashes arise).
- The filesystem is an explicit state: an association list of file paths to
  bytes (later writes are prepended, so lookup sees the newest write) plus a
  list of directory paths.
- Dynamic `import()` and plugin constructors are abstracted as an
  environment mapping import specifiers to fallible module values; lifecycle
  hooks are carried on each instance as the `Except` outcome their invocation
  would produce (`Except.ok` is the default no-op hook).
- A thrown/rejected value is `Except.error`; a `try { … } catch` is embedded
  as a match on the fallible body.
-/

/-- Byte strings (file contents, streamed responses). -/
abbrev Bytes := List Nat

/-- Filesystem paths as lists of path segments. -/
abbrev FsPath := List String

/-- Split a character list at every slash, accumulating the current segment
in reverse (an executable, structurally recursive split on "/"). -/
def splitOnSlash : List Char → List Char → List String
  | [], cur => [String.mk cur.reverse]
  | c :: rest, cur =>
    if c = '/' then String.mk cur.reverse :: splitOnSlash rest []
    else splitOnSlash rest (c :: cur)

/-- Segments of a POSIX path string: split on "/", dropping empty and "."
segments. This is Node `path.posix` normalization restricted to the relative,
".."-free paths the embedded code builds. -/
def segmentsOf (p : String) : FsPath :=
  (splitOnSlash p.data []).filter (fun s => s ≠ "" && s ≠ ".")

/-- Node `path.posix.join` applied to one argument (normalization only), as
used in `loadApplication` (`path.posix.join("./src/applications/" + appPath)`). -/
def posixJoin1 (p : String) : String :=
  String.intercalate "/" (segmentsOf p)

/-- Node `path.posix.join` applied to two arguments, as used to build the
entry-module import specifier. -/
def posixJoin2 (a b : String) : String :=
  String.intercalate "/" (segmentsOf a ++ segmentsOf b)

/-- One credited person, from `IYourDashApplicationConfigV1.credits` entries. -/
structure ICredit where
  name : String
  site : String
deriving DecidableEq

/-- The `credits` field of the descriptor. -/
structure ICredits where
  authors : Option (List ICredit)
  contributors : Option (List ICredit)
  translators : Option (List ICredit)
  other : Option (List ICredit)
deriving DecidableEq

/-- The `version` field of the descriptor (`{minor, major}`, source order). -/
structure IVersion where
  minor : Nat
  major : Nat
deriving DecidableEq

/-- Plugin Descriptor: `IYourDashApplicationConfigV1` from
`src/applications.ts`. The optional `frontend` object is represented by its
`entryPoint` string; `externalFrontend` by its `url`. -/
structure IYourDashApplicationConfigV1 where
  id : String
  displayName : String
  description : String
  version : IVersion
  credits : ICredits
  configVersion : Nat
  frontend : Option String
  externalFrontend : Option String
deriving DecidableEq

/-- Decidable equality for `Except`, needed so hook outcomes stay decidable. -/
instance {ε α : Type} [DecidableEq ε] [DecidableEq α] : DecidableEq (Except ε α) := fun a b =>
  match a, b with
  | Except.ok x, Except.ok y =>
    if h : x = y then Decidable.isTrue (by rw [h]) else Decidable.isFalse (by simp [h])
  | Except.error x, Except.error y =>
    if h : x = y then Decidable.isTrue (by rw [h]) else Decidable.isFalse (by simp [h])
  | Except.ok _, Except.error _ => Decidable.isFalse (by simp)
  | Except.error _, Except.ok _ => Decidable.isFalse (by simp)

/-- Plugin Instance: class `YourDashApplication` from `src/applications.ts`.
The lifecycle hooks `onLoad` and `onBeforeUninstall` are methods with default
no-op bodies that plugins override; each instance carries the `Except`
outcome its hook invocation produces (`Except.ok ()` for the default). -/
structure YourDashApplication where
  id : String
  __internal_params : IYourDashApplicationConfigV1
  __internal_initializedPath : String
  onLoadResult : Except String Unit
  onBeforeUninstallResult : Except String Unit
deriving DecidableEq

/-- Constructor of `YourDashApplication` (src/applications.ts lines 36-42):
stores the params, copies `id` out of them, and sets the path sentinel. The
hook outcomes belong to the (possibly overriding) concrete class. -/
def mkYourDashApplication (applicationParams : IYourDashApplicationConfigV1)
    (onLoadResult : Except String Unit) (onBeforeUninstallResult : Except String Unit) :
    YourDashApplication :=
  { id := applicationParams.id
    __internal_params := applicationParams
    __internal_initializedPath := "NOT YET LOADED!!!!"
    onLoadResult := onLoadResult
    onBeforeUninstallResult := onBeforeUninstallResult }

/-- Filesystem state: files (newest write first) and directories. -/
structure FS where
  files : List (FsPath × Bytes)
  dirs : List FsPath
deriving DecidableEq

/-- Contents of the file at `p`, if a file exists there. -/
def FS.readFile (fs : FS) (p : FsPath) : Option Bytes :=
  (fs.files.find? (fun e => e.1 = p)).map (fun e => e.2)

/-- Whether `fs.access(p, F_OK)` succeeds: a file or directory exists at `p`. -/
def FS.pathExists (fs : FS) (p : FsPath) : Bool :=
  (fs.readFile p).isSome || fs.dirs.contains p

/-- Write (create or overwrite) the file at `p`. -/
def FS.writeFile (fs : FS) (p : FsPath) (b : Bytes) : FS :=
  { fs with files := (p, b) :: fs.files }

/-- `mkdir(p, {recursive: true})`: record the directory (never fails when the
parent tree is creatable; ancestors are irrelevant to the embedded checks, so
only the full path is recorded). -/
def FS.mkdirRecursive (fs : FS) (p : FsPath) : FS :=
  { fs with dirs := p :: fs.dirs }

/-- Embeds `Filesystem.doesPathExist` (src/filesystem.ts lines 258-265): the
outcome of the awaited `fs.access(path, constants.F_OK)` call is passed in as
an `Except` value; the try-block returns true on success and the catch maps
every thrown error to false. -/
def doesPathExist (accessOutcome : Except String Unit) : Bool :=
  match accessOutcome with
  | Except.ok _ => true
  | Except.error _ => false

/-- The `fs.access(p, F_OK)` outcome over the modelled filesystem state. -/
def fsAccess (fs : FS) (p : FsPath) : Except String Unit :=
  if fs.pathExists p then Except.ok () else Except.error "ENOENT"

/-- Filesystem root (`path.resolve(process.cwd() + "/fs")`,
src/filesystem.ts line 33); the absolute prefix is abbreviated to two fixed
segments since the claims never vary the working directory. -/
def FS_ROOT : FsPath := ["cwd", "fs"]

/-- `commonPaths.globalCacheDirectory()` = `{FS_ROOT}/Cache/`. -/
def globalCacheDirectory : FsPath := FS_ROOT ++ ["Cache"]

/-- Modelled from the spec: `resizeImage` (its module `src/image.ts` is not
among the provided sources). Per spec §6/§7,
`resize(sourcePath, width, height, destPath, format) → success | RenditionError`:
an unreadable source yields a `RenditionError` rejection, a success writes the
transformed bytes to `destPath`. The pure image transform itself is abstracted
as the `transform` argument (deterministic in the source bytes, target
dimensions and format). -/
def resizeImage (transform : Bytes → Nat → Nat → String → Bytes) (fs : FS)
    (sourcePath : FsPath) (width height : Nat) (destPath : FsPath) (format : String) :
    Except String FS :=
  match fs.readFile sourcePath with
  | none => Except.error "RenditionError"
  | some b => Except.ok (fs.writeFile destPath (transform b width height format))

/-- Outcome of one icon route handler, as seen by the network layer. -/
inductive IconResponse where
  /-- `res.status(404)`: the plugin id did not resolve in the registry. -/
  | notFound : IconResponse
  /-- `sendFile`: a `createReadStream` of the file at a path is sent with the
  mime type; `none` content models the stream erroring on a missing file. -/
  | fileStream : Option Bytes → String → IconResponse
  /-- An uncaught rejection inside the async handler (fastify then sends an
  error reply, not an image). -/
  | serverError : String → IconResponse
deriving DecidableEq

/-- `RequestManager.sendFile(res, filePath, mimeType)`: stream the file at
`filePath` with `mimeType`. -/
def sendFile (fs : FS) (filePath : FsPath) (mimeType : String) : IconResponse :=
  IconResponse.fileStream (fs.readFile filePath) mimeType

/-- Result of running one icon route: the filesystem after the handler, the
response, how many times `resizeImage` was invoked, and whether the source
icon was touched (existence-checked or read). -/
structure RouteResult where
  fs : FS
  response : IconResponse
  resizeInvocations : Nat
  sourceIconTouched : Bool
deriving DecidableEq

/-- Shared registry lookup used by every panel route:
`this.instance.applications.loadedApplications.find((a) => a.__internal_params.id === applicationId)`. -/
def findLoadedApplication (loadedApplications : List YourDashApplication)
    (applicationId : String) : Option YourDashApplication :=
  loadedApplications.find? (fun a => a.__internal_params.id = applicationId)

/-- Embeds `GET /core/panel/applications/app/largeGrid/:applicationId`
(requestManager.ts lines 2331-2398): resolve the plugin; if the cached
`largeGridIcon.webp` exists stream it; else create the plugin's cache
directory, stream the global fallback if the source `icon.avif` is missing,
else resize the source to 88x88 webp at the cache path and stream that file. -/
def largeGridIconRoute (transform : Bytes → Nat → Nat → String → Bytes)
    (loadedApplications : List YourDashApplication) (fs : FS) (applicationId : String) :
    RouteResult :=
  match findLoadedApplication loadedApplications applicationId with
  | none => ⟨fs, IconResponse.notFound, 0, false⟩
  | some app =>
    let cachePath := globalCacheDirectory ++ ["panel", "applications", app.__internal_params.id, "largeGridIcon.webp"]
    if fs.pathExists cachePath then
      ⟨fs, sendFile fs cachePath "image/webp", 0, false⟩
    else
      let fs1 := fs.mkdirRecursive (globalCacheDirectory ++ ["panel", "applications", app.__internal_params.id])
      let sourcePath := segmentsOf app.__internal_initializedPath ++ ["icon.avif"]
      if !(fs1.pathExists sourcePath) then
        ⟨fs1, sendFile fs1 (globalCacheDirectory ++ ["panel", "invalidIcon.webp"]) "image/webp", 0, true⟩
      else
        match resizeImage transform fs1 sourcePath 88 88 cachePath "webp" with
        | Except.error e => ⟨fs1, IconResponse.serverError e, 1, true⟩
        | Except.ok fs2 => ⟨fs2, sendFile fs2 cachePath "image/webp", 1, true⟩

/-- Embeds `GET /core/panel/applications/app/smallGrid/:applicationId`
(requestManager.ts lines 2400-2467): identical to the large-grid route except
for the cache file name `smallGridIcon.webp`. -/
def smallGridIconRoute (transform : Bytes → Nat → Nat → String → Bytes)
    (loadedApplications : List YourDashApplication) (fs : FS) (applicationId : String) :
    RouteResult :=
  match findLoadedApplication loadedApplications applicationId with
  | none => ⟨fs, IconResponse.notFound, 0, false⟩
  | some app =>
    let cachePath := globalCacheDirectory ++ ["panel", "applications", app.__internal_params.id, "smallGridIcon.webp"]
    if fs.pathExists cachePath then
      ⟨fs, sendFile fs cachePath "image/webp", 0, false⟩
    else
      let fs1 := fs.mkdirRecursive (globalCacheDirectory ++ ["panel", "applications", app.__internal_params.id])
      let sourcePath := segmentsOf app.__internal_initializedPath ++ ["icon.avif"]
      if !(fs1.pathExists sourcePath) then
        ⟨fs1, sendFile fs1 (globalCacheDirectory ++ ["panel", "invalidIcon.webp"]) "image/webp", 0, true⟩
      else
        match resizeImage transform fs1 sourcePath 88 88 cachePath "webp" with
        | Except.error e => ⟨fs1, IconResponse.serverError e, 1, true⟩
        | Except.ok fs2 => ⟨fs2, sendFile fs2 cachePath "image/webp", 1, true⟩

/-- Embeds `GET /core/panel/applications/app/list/:applicationId`
(requestManager.ts lines 2469-2536): identical to the grid routes except for
the cache file name `listIcon.webp`. -/
def listIconRoute (transform : Bytes → Nat → Nat → String → Bytes)
    (loadedApplications : List YourDashApplication) (fs : FS) (applicationId : String) :
    RouteResult :=
  match findLoadedApplication loadedApplications applicationId with
  | none => ⟨fs, IconResponse.notFound, 0, false⟩
  | some app =>
    let cachePath := globalCacheDirectory ++ ["panel", "applications", app.__internal_params.id, "listIcon.webp"]
    if fs.pathExists cachePath then
      ⟨fs, sendFile fs cachePath "image/webp", 0, false⟩
    else
      let fs1 := fs.mkdirRecursive (globalCacheDirectory ++ ["panel", "applications", app.__internal_params.id])
      let sourcePath := segmentsOf app.__internal_initializedPath ++ ["icon.avif"]
      if !(fs1.pathExists sourcePath) then
        ⟨fs1, sendFile fs1 (globalCacheDirectory ++ ["panel", "invalidIcon.webp"]) "image/webp", 0, true⟩
      else
        match resizeImage transform fs1 sourcePath 88 88 cachePath "webp" with
        | Except.error e => ⟨fs1, IconResponse.serverError e, 1, true⟩
        | Except.ok fs2 => ⟨fs2, sendFile fs2 cachePath "image/webp", 1, true⟩

/-- Embeds `GET /core/panel/quick-shortcut/icon/:applicationId`
(requestManager.ts lines 2641-2700). Unlike the grid/list routes this handler
performs NO existence check on its source icon (`assets/icon.png`): after the
cache miss it invokes the resize directly, so a missing source surfaces the
resize rejection instead of the global fallback image. -/
def quickShortcutIconRoute (transform : Bytes → Nat → Nat → String → Bytes)
    (loadedApplications : List YourDashApplication) (fs : FS) (applicationId : String) :
    RouteResult :=
  match findLoadedApplication loadedApplications applicationId with
  | none => ⟨fs, IconResponse.notFound, 0, false⟩
  | some app =>
    let cachePath := globalCacheDirectory ++ ["panel", "applications", app.__internal_params.id, "quickShortcut.webp"]
    if fs.pathExists cachePath then
      ⟨fs, sendFile fs cachePath "image/webp", 0, false⟩
    else
      let fs1 := fs.mkdirRecursive (globalCacheDirectory ++ ["panel", "applications", app.__internal_params.id])
      let sourcePath := segmentsOf app.__internal_initializedPath ++ ["assets", "icon.png"]
      match resizeImage transform fs1 sourcePath 88 88 cachePath "webp" with
      | Except.error e => ⟨fs1, IconResponse.serverError e, 1, true⟩
      | Except.ok fs2 => ⟨fs2, sendFile fs2 cachePath "image/webp", 1, true⟩

/-- The value of a successful dynamic `import()` of a plugin entry module:
`new applicationImport.default()` constructs an instance (or throws). -/
structure PluginModule where
  construct : Except String YourDashApplication

/-- Load environment: what each dynamic `import()` specifier resolves to. An
`Except.error` is a rejected import (entry module missing, or the module's
top level throwing); a malformed descriptor/failing constructor is an
`Except.error` in the module's `construct`. -/
structure LoadEnv where
  importModule : String → Except String PluginModule

/-- The import specifier built in `loadApplication` (src/applications.ts line
83): `"../../applications/" + path.posix.join(applicationPath, "/backend/src/index.ts")`. -/
def importSpecifier (applicationPath : String) : String :=
  "../../applications/" ++ posixJoin2 applicationPath "/backend/src/index.ts"

/-- Embeds `Applications.verifyApplication` (src/applications.ts lines 96-98):
the body is only `return this`; it has no effect and cannot throw. -/
def verifyApplication (_applicationPath : String) : Unit := ()

/-- Embeds `Applications.loadApplication` (src/applications.ts lines 78-94).
The try-block imports the entry module, constructs the instance, sets
`__internal_initializedPath`, pushes onto `loadedApplications`, then invokes
`onLoad()`; the catch logs and returns null. A throw before the push leaves
the live set unchanged; a throw from `onLoad` happens after the push, so the
instance stays in the live set even though null is returned. Returns the new
`loadedApplications` and the returned instance (absent on failure). -/
def loadApplication (env : LoadEnv) (loadedApplications : List YourDashApplication)
    (applicationPath : String) : List YourDashApplication × Option YourDashApplication :=
  match env.importModule (importSpecifier applicationPath) with
  | Except.error _ => (loadedApplications, none)
  | Except.ok applicationImport =>
    match applicationImport.construct with
    | Except.error _ => (loadedApplications, none)
    | Except.ok application0 =>
      let application := { application0 with
        __internal_initializedPath := posixJoin1 ("./src/applications/" ++ applicationPath) }
      match application.onLoadResult with
      | Except.error _ => (loadedApplications ++ [application], none)
      | Except.ok _ => (loadedApplications ++ [application], some application)

/-- The startup loading loop (src/main.ts lines 243-246): load every
installed application path in order, threading the live set through. -/
def startupLoadLoop (env : LoadEnv) (loadedApplications : List YourDashApplication)
    (applications : List String) : List YourDashApplication :=
  match applications with
  | [] => loadedApplications
  | app :: rest => startupLoadLoop env (loadApplication env loadedApplications app).1 rest

/-- Embeds `Applications.uninstallApplication` (src/applications.ts lines
100-102): the body is only `return this` — no hook is invoked and the live
set is untouched. The second component counts the `onBeforeUninstall`
invocations the call performed (none). -/
def uninstallApplication (loadedApplications : List YourDashApplication)
    (_applicationId : String) : List YourDashApplication × Nat :=
  (loadedApplications, 0)

/-- Modelled from the spec: `findById(pluginId)` — lookup by identity among
the live set (spec §4.1). The source has no named `findById` method; every
route inlines the identical `loadedApplications.find((a) => a.__internal_params.id === pluginId)`. -/
def findById (loadedApplications : List YourDashApplication) (pluginId : String) :
    Option YourDashApplication :=
  findLoadedApplication loadedApplications pluginId

/-- One entry of the quick-shortcuts listing response
(`{displayName, id, endpoint?, url?}`). -/
structure QuickShortcutEntry where
  displayName : String
  id : String
  endpoint : Option String
  url : Option String
deriving DecidableEq

/-- Embeds `GET /core/panel/quick-shortcuts` (requestManager.ts lines
2604-2639): map each pinned identifier to the matching loaded application,
filter out the unresolved ones (`.filter((a) => a !== undefined)`), then
build an entry per resolved application (an `endpoint` when the descriptor
declares an embedded frontend, else a `url`). -/
def quickShortcutsRoute (loadedApplications : List YourDashApplication)
    (pinned_applications : List String) : List QuickShortcutEntry :=
  let pinnedApplications :=
    (pinned_applications.map (fun a => findLoadedApplication loadedApplications a)).reduceOption
  pinnedApplications.map (fun app =>
    match app.__internal_params.frontend with
    | some _ =>
      { displayName := app.__internal_params.displayName
        id := app.__internal_params.id
        endpoint := some ("/app/a/" ++ app.__internal_params.id)
        url := none }
    | none =>
      { displayName := app.__internal_params.displayName
        id := app.__internal_params.id
        endpoint := none
        url := some (app.__internal_params.externalFrontend.getD "example.com") })

/-- Embeds `POST /core/panel/quick-shortcuts/create` (requestManager.ts lines
2702-2743) over the stored pinned list of the requesting user: when the
application id resolves in the registry, an already-pinned id answers
`{success: false}` with the list unchanged, otherwise the id is appended and
`{success: true}` answered; an unresolved id falls off the end of the handler
(no response value, list unchanged). The database read/update pair is
embedded as the list argument and the returned list. -/
def createQuickShortcutRoute (loadedApplications : List YourDashApplication)
    (pinned_applications : List String) (applicationId : String) :
    Option Bool × List String :=
  match findLoadedApplication loadedApplications applicationId with
  | some _ =>
    if pinned_applications.contains applicationId then
      (some false, pinned_applications)
    else
      (some true, pinned_applications ++ [applicationId])
  | none => (none, pinned_applications)

/-- The instance a successful `loadApplication(applicationPath)` call builds
before pushing it: the module's constructed instance with
`__internal_initializedPath` set. Absent when the import or the constructor
throws. -/
def constructedApp (env : LoadEnv) (applicationPath : String) : Option YourDashApplication :=
  match env.importModule (importSpecifier applicationPath) with
  | Except.error _ => none
  | Except.ok applicationImport =>
    match applicationImport.construct with
    | Except.error _ => none
    | Except.ok application0 =>
      some { application0 with
        __internal_initializedPath := posixJoin1 ("./src/applications/" ++ applicationPath) }

/-- Directory creation leaves file contents untouched. -/
theorem FS.readFile_mkdirRecursive (fs : FS) (d p : FsPath) :
    (fs.mkdirRecursive d).readFile p = fs.readFile p := rfl

/-- Directory creation leaves the file table untouched. -/
theorem FS.files_mkdirRecursive (fs : FS) (d : FsPath) :
    (fs.mkdirRecursive d).files = fs.files := rfl

/-- Reading back a freshly written file yields the written bytes. -/
theorem FS.readFile_writeFile_self (fs : FS) (p : FsPath) (b : Bytes) :
    (fs.writeFile p b).readFile p = some b := by
  simp [FS.readFile, FS.writeFile]

/-- A path holding a file exists. -/
theorem FS.pathExists_of_readFile {fs : FS} {p : FsPath} {b : Bytes}
    (h : fs.readFile p = some b) : fs.pathExists p = true := by
  simp [FS.pathExists, h]

/-- Existence after `mkdir` of a different path, when no file is at `p`. -/
theorem FS.pathExists_mkdirRecursive_of_not {fs : FS} {d p : FsPath}
    (hf : fs.readFile p = none) (hd : fs.dirs.contains p = false) (hne : p ≠ d) :
    (fs.mkdirRecursive d).pathExists p = false := by
  have h1 : (fs.mkdirRecursive d).readFile p = none := hf
  have h2 : (fs.mkdirRecursive d).dirs = d :: fs.dirs := rfl
  simp at hd
  simp [FS.pathExists, h1, h2, List.contains_cons, hd, hne]

/-- Demo fixtures used by witnesses and counterexamples. -/
def demoCredits : ICredits := ⟨none, none, none, none⟩

/-- Descriptor of the demo plugin `uk-example-app`. -/
def demoParams : IYourDashApplicationConfigV1 :=
  ⟨"uk-example-app", "Example App", "A demo application.", ⟨0, 1⟩, demoCredits, 1, none, none⟩

/-- Freshly constructed demo instance (default no-op hooks). -/
def demoApp : YourDashApplication :=
  mkYourDashApplication demoParams (Except.ok ()) (Except.ok ())

/-- The demo instance as `loadApplication` leaves it in the live set. -/
def demoLoadedApp : YourDashApplication :=
  { demoApp with __internal_initializedPath := "src/applications/uk-example-app" }

/-- Descriptor of a demo plugin whose `onLoad` throws. -/
def demoThrowingParams : IYourDashApplicationConfigV1 :=
  ⟨"uk-throwing-app", "Throwing App", "A demo application whose onLoad throws.", ⟨0, 1⟩,
    demoCredits, 1, none, none⟩

/-- Demo instance whose `onLoad` invocation throws. -/
def demoThrowingApp : YourDashApplication :=
  mkYourDashApplication demoThrowingParams (Except.error "onLoad threw") (Except.ok ())

/-- Demo load environment: `uk-example-app` imports and constructs cleanly,
`uk-throwing-app` constructs an instance whose `onLoad` throws, everything
else fails to import (missing entry module). -/
def demoEnv : LoadEnv :=
  ⟨fun s =>
    if s = importSpecifier "uk-example-app" then Except.ok ⟨Except.ok demoApp⟩
    else if s = importSpecifier "uk-throwing-app" then Except.ok ⟨Except.ok demoThrowingApp⟩
    else Except.error "Cannot find module"⟩

/-- Demo image transform (prepends a marker byte). -/
def demoTransform : Bytes → Nat → Nat → String → Bytes := fun b _ _ _ => 7 :: b

/-- Fast path of the small-grid route: when the plugin resolves and the cache
file exists, its bytes are streamed and nothing else happens. -/
theorem smallGridIconRoute_hit (transform : Bytes → Nat → Nat → String → Bytes)
    (loadedApplications : List YourDashApplication) (fs : FS) (applicationId : String)
    (app : YourDashApplication) (cb : Bytes)
    (happ : findLoadedApplication loadedApplications applicationId = some app)
    (hcb : fs.readFile (globalCacheDirectory ++
      ["panel", "applications", app.__internal_params.id, "smallGridIcon.webp"]) = some cb) :
    smallGridIconRoute transform loadedApplications fs applicationId
      = ⟨fs, IconResponse.fileStream (some cb) "image/webp", 0, false⟩ := by
  simp [smallGridIconRoute, happ, FS.pathExists_of_readFile hcb, sendFile, hcb]

/-- Generation path of the small-grid route: cache miss with a readable
source icon resizes once and streams the freshly written cache file. -/
theorem smallGridIconRoute_generate (transform : Bytes → Nat → Nat → String → Bytes)
    (loadedApplications : List YourDashApplication) (fs : FS) (applicationId : String)
    (app : YourDashApplication) (srcBytes : Bytes)
    (happ : findLoadedApplication loadedApplications applicationId = some app)
    (hmiss : fs.pathExists (globalCacheDirectory ++
      ["panel", "applications", app.__internal_params.id, "smallGridIcon.webp"]) = false)
    (hsrc : fs.readFile (segmentsOf app.__internal_initializedPath ++ ["icon.avif"])
      = some srcBytes) :
    smallGridIconRoute transform loadedApplications fs applicationId
      = ⟨(fs.mkdirRecursive (globalCacheDirectory ++
            ["panel", "applications", app.__internal_params.id])).writeFile
          (globalCacheDirectory ++
            ["panel", "applications", app.__internal_params.id, "smallGridIcon.webp"])
          (transform srcBytes 88 88 "webp"),
         IconResponse.fileStream (some (transform srcBytes 88 88 "webp")) "image/webp", 1, true⟩ := by
  have h1 : ((fs.mkdirRecursive (globalCacheDirectory ++
      ["panel", "applications", app.__internal_params.id])).readFile
      (segmentsOf app.__internal_initializedPath ++ ["icon.avif"])) = some srcBytes := hsrc
  simp [smallGridIconRoute, happ, hmiss, FS.pathExists_of_readFile h1, resizeImage, h1,
    sendFile, FS.readFile_writeFile_self]

/-- Fallback path of the large-grid route: cache miss with no source icon
streams the global invalid-icon file and writes no file. -/
theorem largeGridIconRoute_fallback (transform : Bytes → Nat → Nat → String → Bytes)
    (loadedApplications : List YourDashApplication) (fs : FS) (applicationId : String)
    (app : YourDashApplication)
    (happ : findLoadedApplication loadedApplications applicationId = some app)
    (hmiss : fs.pathExists (globalCacheDirectory ++
      ["panel", "applications", app.__internal_params.id, "largeGridIcon.webp"]) = false)
    (hsrcmiss : ((fs.mkdirRecursive (globalCacheDirectory ++
      ["panel", "applications", app.__internal_params.id])).pathExists
      (segmentsOf app.__internal_initializedPath ++ ["icon.avif"])) = false) :
    largeGridIconRoute transform loadedApplications fs applicationId
      = ⟨fs.mkdirRecursive (globalCacheDirectory ++
            ["panel", "applications", app.__internal_params.id]),
         IconResponse.fileStream
           (fs.readFile (globalCacheDirectory ++ ["panel", "invalidIcon.webp"])) "image/webp",
         0, true⟩ := by
  simp [largeGridIconRoute, happ, hmiss, hsrcmiss, sendFile, FS.readFile_mkdirRecursive]

/-- Fallback path of the small-grid route (same shape as the large-grid one,
different cache file name). -/
theorem smallGridIconRoute_fallback (transform : Bytes → Nat → Nat → String → Bytes)
    (loadedApplications : List YourDashApplication) (fs : FS) (applicationId : String)
    (app : YourDashApplication)
    (happ : findLoadedApplication loadedApplications applicationId = some app)
    (hmiss : fs.pathExists (globalCacheDirectory ++
      ["panel", "applications", app.__internal_params.id, "smallGridIcon.webp"]) = false)
    (hsrcmiss : ((fs.mkdirRecursive (globalCacheDirectory ++
      ["panel", "applications", app.__internal_params.id])).pathExists
      (segmentsOf app.__internal_initializedPath ++ ["icon.avif"])) = false) :
    smallGridIconRoute transform loadedApplications fs applicationId
      = ⟨fs.mkdirRecursive (globalCacheDirectory ++
            ["panel", "applications", app.__internal_params.id]),
         IconResponse.fileStream
           (fs.readFile (globalCacheDirectory ++ ["panel", "invalidIcon.webp"])) "image/webp",
         0, true⟩ := by
  simp [smallGridIconRoute, happ, hmiss, hsrcmiss, sendFile, FS.readFile_mkdirRecursive]

/-- Fallback path of the list route (same shape, cache file `listIcon.webp`). -/
theorem listIconRoute_fallback (transform : Bytes → Nat → Nat → String → Bytes)
    (loadedApplications : List YourDashApplication) (fs : FS) (applicationId : String)
    (app : YourDashApplication)
    (happ : findLoadedApplication loadedApplications applicationId = some app)
    (hmiss : fs.pathExists (globalCacheDirectory ++
      ["panel", "applications", app.__internal_params.id, "listIcon.webp"]) = false)
    (hsrcmiss : ((fs.mkdirRecursive (globalCacheDirectory ++
      ["panel", "applications", app.__internal_params.id])).pathExists
      (segmentsOf app.__internal_initializedPath ++ ["icon.avif"])) = false) :
    listIconRoute transform loadedApplications fs applicationId
      = ⟨fs.mkdirRecursive (globalCacheDirectory ++
            ["panel", "applications", app.__internal_params.id]),
         IconResponse.fileStream
           (fs.readFile (globalCacheDirectory ++ ["panel", "invalidIcon.webp"])) "image/webp",
         0, true⟩ := by
  simp [listIconRoute, happ, hmiss, hsrcmiss, sendFile, FS.readFile_mkdirRecursive]

/-- C1: for a loaded plugin with an existing (readable) source icon, two
successive small-grid Asset Cache fetches return byte-identical output, the
resize operation runs at most once across the two calls, and the second call
is a cache hit that streams the cached file without touching the source icon
or invoking the resize. (The cache path is additionally assumed not to be a
directory, as on a real filesystem.) -/
theorem C1_small_grid_fetch_idempotent (transform : Bytes → Nat → Nat → String → Bytes)
    (loadedApplications : List YourDashApplication) (fs : FS) (applicationId : String)
    (app : YourDashApplication) (srcBytes : Bytes) (r1 r2 : RouteResult)
    (happ : findLoadedApplication loadedApplications applicationId = some app)
    (hsrc : fs.readFile (segmentsOf app.__internal_initializedPath ++ ["icon.avif"])
      = some srcBytes)
    (hnodir : fs.dirs.contains (globalCacheDirectory ++
      ["panel", "applications", app.__internal_params.id, "smallGridIcon.webp"]) = false)
    (hr1 : r1 = smallGridIconRoute transform loadedApplications fs applicationId)
    (hr2 : r2 = smallGridIconRoute transform loadedApplications r1.fs applicationId) :
    (∃ b : Bytes, r1.response = IconResponse.fileStream (some b) "image/webp"
        ∧ r2.response = IconResponse.fileStream (some b) "image/webp")
    ∧ r1.resizeInvocations + r2.resizeInvocations ≤ 1
    ∧ r2.resizeInvocations = 0
    ∧ r2.sourceIconTouched = false := by
  subst hr1 hr2
  rcases hex : fs.pathExists (globalCacheDirectory ++
      ["panel", "applications", app.__internal_params.id, "smallGridIcon.webp"]) with _ | _
  · -- cache miss on the first call: generate once, hit on the second call
    rw [smallGridIconRoute_generate transform loadedApplications fs applicationId app srcBytes
      happ hex hsrc]
    rw [smallGridIconRoute_hit transform loadedApplications _ applicationId app
      (transform srcBytes 88 88 "webp") happ (FS.readFile_writeFile_self ..)]
    exact ⟨⟨transform srcBytes 88 88 "webp", rfl, rfl⟩, by simp, rfl, rfl⟩
  · -- cache hit already on the first call
    have hsome : ((fs.readFile (globalCacheDirectory ++
        ["panel", "applications", app.__internal_params.id, "smallGridIcon.webp"])).isSome)
        = true := by
      have := hex
      simp only [FS.pathExists, hnodir, Bool.or_false] at this
      exact this
    rcases Option.isSome_iff_exists.mp hsome with ⟨cb, hcb⟩
    rw [smallGridIconRoute_hit transform loadedApplications fs applicationId app cb happ hcb]
    rw [smallGridIconRoute_hit transform loadedApplications fs applicationId app cb happ hcb]
    exact ⟨⟨cb, rfl, rfl⟩, by simp, rfl, rfl⟩

/-- Witness for C1 at a concrete state: the demo plugin with its source icon
present and an empty cache. -/
theorem C1_small_grid_fetch_idempotent_witness :
    (∃ b : Bytes,
      (smallGridIconRoute demoTransform [demoLoadedApp]
          ⟨[(["src", "applications", "uk-example-app", "icon.avif"], [1, 2, 3])], []⟩
          "uk-example-app").response = IconResponse.fileStream (some b) "image/webp"
      ∧ (smallGridIconRoute demoTransform [demoLoadedApp]
          (smallGridIconRoute demoTransform [demoLoadedApp]
            ⟨[(["src", "applications", "uk-example-app", "icon.avif"], [1, 2, 3])], []⟩
            "uk-example-app").fs
          "uk-example-app").response = IconResponse.fileStream (some b) "image/webp")
    ∧ (smallGridIconRoute demoTransform [demoLoadedApp]
        ⟨[(["src", "applications", "uk-example-app", "icon.avif"], [1, 2, 3])], []⟩
        "uk-example-app").resizeInvocations
      + (smallGridIconRoute demoTransform [demoLoadedApp]
          (smallGridIconRoute demoTransform [demoLoadedApp]
            ⟨[(["src", "applications", "uk-example-app", "icon.avif"], [1, 2, 3])], []⟩
            "uk-example-app").fs
          "uk-example-app").resizeInvocations ≤ 1
    ∧ (smallGridIconRoute demoTransform [demoLoadedApp]
        (smallGridIconRoute demoTransform [demoLoadedApp]
          ⟨[(["src", "applications", "uk-example-app", "icon.avif"], [1, 2, 3])], []⟩
          "uk-example-app").fs
        "uk-example-app").resizeInvocations = 0
    ∧ (smallGridIconRoute demoTransform [demoLoadedApp]
        (smallGridIconRoute demoTransform [demoLoadedApp]
          ⟨[(["src", "applications", "uk-example-app", "icon.avif"], [1, 2, 3])], []⟩
          "uk-example-app").fs
        "uk-example-app").sourceIconTouched = false :=
  C1_small_grid_fetch_idempotent demoTransform [demoLoadedApp]
    ⟨[(["src", "applications", "uk-example-app", "icon.avif"], [1, 2, 3])], []⟩
    "uk-example-app" demoLoadedApp [1, 2, 3] _ _ (by decide) (by decide) (by decide) rfl rfl

/-- Concrete filesystem holding only the provisioned global fallback image
(bytes `[9, 9]`): no plugin source icons and an empty cache. -/
def fallbackOnlyFS : FS :=
  ⟨[(globalCacheDirectory ++ ["panel", "invalidIcon.webp"], [9, 9])], []⟩

/-- C3: for a loaded plugin whose source icon does not exist and whose cache
file is absent, each of the large-grid, small-grid and list fetches streams
the global fallback image `{globalCacheRoot}/panel/invalidIcon.webp` and
creates no file at all (in particular none under the plugin's cache
subdirectory), so a later install of the real icon is seen next request. -/
theorem C3_missing_icon_streams_fallback (transform : Bytes → Nat → Nat → String → Bytes)
    (loadedApplications : List YourDashApplication) (fs : FS) (applicationId : String)
    (app : YourDashApplication) (fallbackBytes : Bytes)
    (happ : findLoadedApplication loadedApplications applicationId = some app)
    (hsrcFile : fs.readFile (segmentsOf app.__internal_initializedPath ++ ["icon.avif"]) = none)
    (hsrcDir : fs.dirs.contains (segmentsOf app.__internal_initializedPath ++ ["icon.avif"])
      = false)
    (hne : (segmentsOf app.__internal_initializedPath ++ ["icon.avif"])
      ≠ globalCacheDirectory ++ ["panel", "applications", app.__internal_params.id])
    (hfb : fs.readFile (globalCacheDirectory ++ ["panel", "invalidIcon.webp"])
      = some fallbackBytes)
    (hcL : fs.pathExists (globalCacheDirectory ++
      ["panel", "applications", app.__internal_params.id, "largeGridIcon.webp"]) = false)
    (hcS : fs.pathExists (globalCacheDirectory ++
      ["panel", "applications", app.__internal_params.id, "smallGridIcon.webp"]) = false)
    (hcI : fs.pathExists (globalCacheDirectory ++
      ["panel", "applications", app.__internal_params.id, "listIcon.webp"]) = false) :
    ((largeGridIconRoute transform loadedApplications fs applicationId).response
        = IconResponse.fileStream (some fallbackBytes) "image/webp"
      ∧ (largeGridIconRoute transform loadedApplications fs applicationId).fs.files = fs.files)
    ∧ ((smallGridIconRoute transform loadedApplications fs applicationId).response
        = IconResponse.fileStream (some fallbackBytes) "image/webp"
      ∧ (smallGridIconRoute transform loadedApplications fs applicationId).fs.files = fs.files)
    ∧ ((listIconRoute transform loadedApplications fs applicationId).response
        = IconResponse.fileStream (some fallbackBytes) "image/webp"
      ∧ (listIconRoute transform loadedApplications fs applicationId).fs.files = fs.files) := by
  have hsm : ((fs.mkdirRecursive (globalCacheDirectory ++
      ["panel", "applications", app.__internal_params.id])).pathExists
      (segmentsOf app.__internal_initializedPath ++ ["icon.avif"])) = false :=
    FS.pathExists_mkdirRecursive_of_not hsrcFile hsrcDir hne
  refine ⟨⟨?_, ?_⟩, ⟨?_, ?_⟩, ⟨?_, ?_⟩⟩
  · rw [largeGridIconRoute_fallback transform loadedApplications fs applicationId app
      happ hcL hsm, hfb]
  · rw [largeGridIconRoute_fallback transform loadedApplications fs applicationId app
      happ hcL hsm]
    rfl
  · rw [smallGridIconRoute_fallback transform loadedApplications fs applicationId app
      happ hcS hsm, hfb]
  · rw [smallGridIconRoute_fallback transform loadedApplications fs applicationId app
      happ hcS hsm]
    rfl
  · rw [listIconRoute_fallback transform loadedApplications fs applicationId app
      happ hcI hsm, hfb]
  · rw [listIconRoute_fallback transform loadedApplications fs applicationId app
      happ hcI hsm]
    rfl

/-- Witness for C3 at a concrete state: the demo plugin with no source icon
and only the global fallback image on disk. -/
theorem C3_missing_icon_streams_fallback_witness :
    ((largeGridIconRoute demoTransform [demoLoadedApp] fallbackOnlyFS "uk-example-app").response
        = IconResponse.fileStream (some [9, 9]) "image/webp"
      ∧ (largeGridIconRoute demoTransform [demoLoadedApp] fallbackOnlyFS
          "uk-example-app").fs.files = fallbackOnlyFS.files)
    ∧ ((smallGridIconRoute demoTransform [demoLoadedApp] fallbackOnlyFS "uk-example-app").response
        = IconResponse.fileStream (some [9, 9]) "image/webp"
      ∧ (smallGridIconRoute demoTransform [demoLoadedApp] fallbackOnlyFS
          "uk-example-app").fs.files = fallbackOnlyFS.files)
    ∧ ((listIconRoute demoTransform [demoLoadedApp] fallbackOnlyFS "uk-example-app").response
        = IconResponse.fileStream (some [9, 9]) "image/webp"
      ∧ (listIconRoute demoTransform [demoLoadedApp] fallbackOnlyFS
          "uk-example-app").fs.files = fallbackOnlyFS.files) :=
  C3_missing_icon_streams_fallback demoTransform [demoLoadedApp] fallbackOnlyFS
    "uk-example-app" demoLoadedApp [9, 9] (by decide) (by decide) (by decide) (by decide)
    (by decide) (by decide) (by decide) (by decide)

/-- C4 (failing input): the quick-shortcut rendition does not follow the
shared pipeline — it never checks its source icon for existence, so for the
demo plugin with no `assets/icon.png`, an empty cache and the fallback image
provisioned, the fetch surfaces the resize `RenditionError` instead of
streaming the global fallback bytes `[9, 9]`. -/
theorem C4_quick_shortcut_missing_icon_is_error :
    (quickShortcutIconRoute demoTransform [demoLoadedApp] fallbackOnlyFS
        "uk-example-app").response = IconResponse.serverError "RenditionError"
    ∧ (quickShortcutIconRoute demoTransform [demoLoadedApp] fallbackOnlyFS
        "uk-example-app").response
      ≠ IconResponse.fileStream (some [9, 9]) "image/webp" := by
  decide

/-- A clean load (import ok, constructor ok, `onLoad` ok) appends exactly the
constructed instance to the live set and returns it. -/
theorem loadApplication_clean (env : LoadEnv) (apps : List YourDashApplication)
    (p : String) (a : YourDashApplication)
    (h : constructedApp env p = some a) (hok : a.onLoadResult = Except.ok ()) :
    loadApplication env apps p = (apps ++ [a], some a) := by
  unfold constructedApp at h
  rcases him : env.importModule (importSpecifier p) with e | m
  · rw [him] at h; simp at h
  · rw [him] at h
    simp only [] at h
    rcases hc : m.construct with e | a0
    · rw [hc] at h; simp at h
    · rw [hc] at h
      simp only [Option.some.injEq] at h
      subst h
      have hok2 : a0.onLoadResult = Except.ok () := hok
      simp [loadApplication, him, hc, hok2]

/-- A failing import or constructor leaves the live set unchanged and
returns null. -/
theorem loadApplication_none (env : LoadEnv) (apps : List YourDashApplication)
    (p : String) (h : constructedApp env p = none) :
    loadApplication env apps p = (apps, none) := by
  unfold constructedApp at h
  rcases him : env.importModule (importSpecifier p) with e | m
  · simp [loadApplication, him]
  · rw [him] at h
    simp only [] at h
    rcases hc : m.construct with e | a0
    · simp [loadApplication, him, hc]
    · rw [hc] at h; simp at h

/-- A throwing `onLoad` hook is caught (null is returned) but happens after
the push: the instance stays in the live set. -/
theorem loadApplication_onload_error (env : LoadEnv) (apps : List YourDashApplication)
    (p : String) (a : YourDashApplication) (e : String)
    (h : constructedApp env p = some a) (herr : a.onLoadResult = Except.error e) :
    loadApplication env apps p = (apps ++ [a], none) := by
  unfold constructedApp at h
  rcases him : env.importModule (importSpecifier p) with e0 | m
  · rw [him] at h; simp at h
  · rw [him] at h
    simp only [] at h
    rcases hc : m.construct with e0 | a0
    · rw [hc] at h; simp at h
    · rw [hc] at h
      simp only [Option.some.injEq] at h
      subst h
      have herr2 : a0.onLoadResult = Except.error e := herr
      simp [loadApplication, him, hc, herr2]

/-- Every `loadApplication` call only appends to the live set. -/
theorem loadApplication_fst_append (env : LoadEnv) (apps : List YourDashApplication)
    (p : String) : ∃ t, (loadApplication env apps p).1 = apps ++ t := by
  rcases hca : constructedApp env p with _ | a
  · exact ⟨[], by rw [loadApplication_none env apps p hca]; simp⟩
  · rcases hol : a.onLoadResult with e | u
    · exact ⟨[a], by rw [loadApplication_onload_error env apps p a e hca hol]⟩
    · cases u
      exact ⟨[a], by rw [loadApplication_clean env apps p a hca hol]⟩

/-- The startup loop never removes an already-loaded instance. -/
theorem mem_startupLoadLoop_of_mem (env : LoadEnv) (x : YourDashApplication) :
    ∀ (paths : List String) (apps : List YourDashApplication),
      x ∈ apps → x ∈ startupLoadLoop env apps paths := by
  intro paths
  induction paths with
  | nil => intro apps h; simpa [startupLoadLoop] using h
  | cons p rest ih =>
    intro apps h
    rw [startupLoadLoop]
    apply ih
    rcases loadApplication_fst_append env apps p with ⟨t, ht⟩
    rw [ht]
    exact List.mem_append_left _ h

/-- A path that loads cleanly ends up in the live set after the startup
loop, whatever else the loop loads. -/
theorem mem_startupLoadLoop_of_clean (env : LoadEnv) (q : String) (a : YourDashApplication)
    (hca : constructedApp env q = some a) (hok : a.onLoadResult = Except.ok ()) :
    ∀ (paths : List String) (apps : List YourDashApplication),
      q ∈ paths → a ∈ startupLoadLoop env apps paths := by
  intro paths
  induction paths with
  | nil => intro apps h; simp at h
  | cons p rest ih =>
    intro apps hmem
    rw [startupLoadLoop]
    rcases List.mem_cons.mp hmem with hqp | hrest
    · subst hqp
      rw [loadApplication_clean env apps q a hca hok]
      exact mem_startupLoadLoop_of_mem env a rest _ (by simp)
    · exact ih _ hrest

/-- C2: a plugin whose load fails before construction completes (entry module
missing, module import throwing, constructor throwing or rejecting a
malformed descriptor — exactly the cases where `constructedApp` is absent)
makes `loadApplication` return null with the live set unchanged; the
embedding's total return type is the never-throws boundary (every failure of
the try-block is mapped to null by the catch). Consequently every other
plugin that loads cleanly still ends up in the live set after the startup
loop over any installed list containing it. -/
theorem C2_load_failure_is_isolated (env : LoadEnv) (apps : List YourDashApplication)
    (p : String) (hfail : constructedApp env p = none) :
    loadApplication env apps p = (apps, none)
    ∧ ∀ (paths : List String) (q : String) (a : YourDashApplication),
        q ∈ paths → constructedApp env q = some a → a.onLoadResult = Except.ok () →
        a ∈ startupLoadLoop env apps paths := by
  refine ⟨loadApplication_none env apps p hfail, ?_⟩
  intro paths q a hq hca hok
  exact mem_startupLoadLoop_of_clean env q a hca hok paths apps hq

/-- Witness for C2: under the demo environment the broken plugin loads to
null leaving the set unchanged, and the clean demo plugin still loads during
a startup loop that also attempts the broken one. -/
theorem C2_load_failure_is_isolated_witness :
    loadApplication demoEnv [] "uk-broken-app" = ([], none)
    ∧ demoLoadedApp ∈ startupLoadLoop demoEnv [] ["uk-broken-app", "uk-example-app"] := by
  have h := C2_load_failure_is_isolated demoEnv [] "uk-broken-app" (by decide)
  exact ⟨h.1, h.2 ["uk-broken-app", "uk-example-app"] "uk-example-app" demoLoadedApp
    (by simp) (by decide) (by decide)⟩

/-- C7 (failing input): for the demo plugin whose `onLoad` throws, the
exception is caught (`loadApplication` returns null, nothing escapes), but
because the push onto `loadedApplications` precedes the `onLoad()` call and
the catch removes nothing, the instance remains in the live set after
`loadApplication` returns. -/
theorem C7_onload_throw_keeps_instance_in_live_set :
    (loadApplication demoEnv [] "uk-throwing-app").2 = none
    ∧ (findById (loadApplication demoEnv [] "uk-throwing-app").1
        "uk-throwing-app").isSome = true := by
  decide

/-- C5 counterexample: with the demo plugin loaded,
`uninstallApplication("uk-example-app")` neither makes `findById` return
absent nor invokes `onBeforeUninstall` once (its body is only `return this`). -/
theorem C5_uninstall_counterexample :
    ¬ (findById (uninstallApplication [demoLoadedApp] "uk-example-app").1 "uk-example-app"
        = none
      ∧ (uninstallApplication [demoLoadedApp] "uk-example-app").2 = 1) := by
  decide

/-- C5 amended: `uninstallApplication` is an unimplemented stub — it invokes
no `onBeforeUninstall` hook (invocation count 0) and leaves the live set
unchanged, so `findById` answers exactly as before the call. -/
theorem C5_uninstall_is_stub (loadedApplications : List YourDashApplication)
    (applicationId : String) :
    uninstallApplication loadedApplications applicationId = (loadedApplications, 0)
    ∧ ∀ pluginId : String,
        findById (uninstallApplication loadedApplications applicationId).1 pluginId
          = findById loadedApplications pluginId :=
  ⟨rfl, fun _ => rfl⟩

/-- Whether a POSIX path string is absolute (begins with a slash). -/
def isAbsolutePath (p : String) : Bool :=
  p.data.head? = some '/'

/-- C8 counterexample: loading the demo plugin sets
`__internal_initializedPath` to "src/applications/uk-example-app", which is
not an absolute filesystem path. -/
theorem C8_resolved_path_not_absolute :
    ((loadApplication demoEnv [] "uk-example-app").2.map
        (fun a => a.__internal_initializedPath)) = some "src/applications/uk-example-app"
    ∧ isAbsolutePath "src/applications/uk-example-app" = false := by
  decide

/-- C8 amended: the field holds the sentinel "NOT YET LOADED!!!!" from
construction until load, and at load it is set (exactly once — nothing else
writes it) to `path.posix.join("./src/applications/" + applicationPath)`, a
path relative to the process working directory rather than an absolute one. -/
theorem C8_sentinel_then_relative_path :
    (∀ (params : IYourDashApplicationConfigV1) (onL onB : Except String Unit),
        (mkYourDashApplication params onL onB).__internal_initializedPath
          = "NOT YET LOADED!!!!")
    ∧ ∀ (env : LoadEnv) (apps : List YourDashApplication) (p : String)
        (a : YourDashApplication),
        (loadApplication env apps p).2 = some a →
        a.__internal_initializedPath = posixJoin1 ("./src/applications/" ++ p) := by
  refine ⟨fun _ _ _ => rfl, ?_⟩
  intro env apps p a h
  rcases hca : constructedApp env p with _ | b
  · rw [loadApplication_none env apps p hca] at h
    simp at h
  · rcases hol : b.onLoadResult with e | u
    · rw [loadApplication_onload_error env apps p b e hca hol] at h
      simp at h
    · cases u
      rw [loadApplication_clean env apps p b hca hol] at h
      simp only [Option.some.injEq] at h
      subst h
      unfold constructedApp at hca
      rcases him : env.importModule (importSpecifier p) with e | m
      · rw [him] at hca; simp at hca
      · rw [him] at hca
        simp only [] at hca
        rcases hc : m.construct with e | a0
        · rw [hc] at hca; simp at hca
        · rw [hc] at hca
          simp only [Option.some.injEq] at hca
          subst hca
          rfl

/-- Witness for the amended C8 at the demo plugin. -/
theorem C8_sentinel_then_relative_path_witness :
    demoLoadedApp.__internal_initializedPath
      = posixJoin1 ("./src/applications/" ++ "uk-example-app") :=
  C8_sentinel_then_relative_path.2 demoEnv [] "uk-example-app" demoLoadedApp (by decide)

/-- C9: `doesPathExist` is total — it returns true exactly when the access
check succeeds and false on every thrown error (nothing propagates), and over
the modelled filesystem it agrees with path existence. -/
theorem C9_doesPathExist_total_and_faithful :
    (∀ accessOutcome : Except String Unit,
        doesPathExist accessOutcome = accessOutcome.isOk)
    ∧ ∀ (fs : FS) (p : FsPath), doesPathExist (fsAccess fs p) = fs.pathExists p := by
  constructor
  · intro r
    cases r <;> rfl
  · intro fs p
    unfold fsAccess
    rcases h : fs.pathExists p with _ | _ <;> simp [h, doesPathExist]

/-- C6: the quick-shortcuts listing resolves each pinned identifier against
the live set, silently omits every identifier that does not resolve to a
loaded plugin, and preserves the relative order of the rest: the listed ids
are exactly the pinned list filtered to the resolvable identifiers. -/
theorem C6_quick_shortcuts_drop_unresolved (loadedApplications : List YourDashApplication)
    (pinned_applications : List String) :
    (quickShortcutsRoute loadedApplications pinned_applications).map (fun e => e.id)
      = pinned_applications.filter
          (fun a => (findLoadedApplication loadedApplications a).isSome) := by
  induction pinned_applications with
  | nil => rfl
  | cons a rest ih =>
    unfold quickShortcutsRoute at ih ⊢
    rcases h : findLoadedApplication loadedApplications a with _ | app
    · simpa [h, List.filter_cons, List.reduceOption_cons_of_none] using ih
    · have h2 : loadedApplications.find? (fun x => x.__internal_params.id = a) = some app := h
      have hid : app.__internal_params.id = a := by
        have h3 := List.find?_some h2
        simpa using h3
      rcases hfr : app.__internal_params.frontend with _ | ep <;>
        simp [h, hfr, hid, List.filter_cons, List.reduceOption_cons_of_some, ih]

/-- C10: for an application id that is loaded but already pinned, the
create-quick-shortcut operation answers `{success: false}` and leaves the
stored pinned list unchanged, so in particular the number of occurrences of
that id in the pinned list does not grow (no duplicate is introduced). -/
theorem C10_duplicate_pin_rejected (loadedApplications : List YourDashApplication)
    (pinned_applications : List String) (applicationId : String)
    (hloaded : (findLoadedApplication loadedApplications applicationId).isSome = true)
    (hpinned : applicationId ∈ pinned_applications) :
    createQuickShortcutRoute loadedApplications pinned_applications applicationId
      = (some false, pinned_applications)
    ∧ ((createQuickShortcutRoute loadedApplications pinned_applications
          applicationId).2).count applicationId
        = pinned_applications.count applicationId := by
  rcases hfind : findLoadedApplication loadedApplications applicationId with _ | app
  · rw [hfind] at hloaded
    simp at hloaded
  · have hc : pinned_applications.contains applicationId = true := by
      simpa using hpinned
    have h1 : createQuickShortcutRoute loadedApplications pinned_applications applicationId
        = (some false, pinned_applications) := by
      unfold createQuickShortcutRoute
      rw [hfind]
      simp [hc, hpinned]
    exact ⟨h1, by rw [h1]⟩

/-- Witness for C10: the demo plugin pinned once, pinned again. -/
theorem C10_duplicate_pin_rejected_witness :
    createQuickShortcutRoute [demoLoadedApp] ["uk-example-app"] "uk-example-app"
      = (some false, ["uk-example-app"])
    ∧ ((createQuickShortcutRoute [demoLoadedApp] ["uk-example-app"]
          "uk-example-app").2).count "uk-example-app"
        = (["uk-example-app"] : List String).count "uk-example-app" :=
  C10_duplicate_pin_rejected [demoLoadedApp] ["uk-example-app"] "uk-example-app"
    (by decide) (by decide)
